import Mathlib

/-!
Verification of the `CoordinateTransformer` core of MeteoTownPicker
(`src/MeteoTownPicker/transformer.py`) against its specification.

The transformer is a pure numeric function, so we embed it shallowly:
coordinates are rationals (the constants in the source are exact decimal
literals and the claims are about the algebra of the formulas), a numpy
array is a list of rows, and failure (a failed `assert` or a raised
`ValueError` / `IndexError`) is the `Except.error` branch.
-/

namespace MeteoTownPicker

/-- Modelled from the spec: the CRS registry is loaded from
`MeteoTownPicker/data/formats.csv`, a data file that is not part of the
source tree; per the spec (section 4.1) the repository ships exactly the
two entries named "WGS84" and "CH1903+". Only the `name` column is
consulted by `transform`. -/
def SUPPORTED_CRS : List String := ["WGS84", "CH1903+"]

/-- The failure modes of `transform`: the two `assert`s on the CRS names
(lines 21-22 of `transformer.py`, spec error kind `UnsupportedCRS`), the
`ValueError` raised by the projection helpers for a name with no formula
(lines 65 and 83, same spec error kind), and the `IndexError` numpy
raises when a column index is out of range (reading column 2 of a
narrower array). -/
inductive TransformError where
  | unsupportedSourceCRS (name : String)
  | unsupportedTargetCRS (name : String)
  | indexError
deriving DecidableEq, Repr

/-- The `coords` argument after `np.array` conversion (line 25): either a
1-dimensional array (a flat sequence of numbers, as produced by
`np.array` on a flat list — including the empty list) or a 2-dimensional
array (a list of equal-length rows). -/
inductive Coords where
  | flat (p : List ℚ)
  | batch (b : List (List ℚ))
deriving DecidableEq, Repr

/-- Payload of one row of `_transform_to_wgs84` for `from_crs = 'CH1903+'`
(lines 56-64): normalize E and N, apply the fixed-coefficient polynomials,
scale by 100/36 and correct the height. Output row is `[lat, long, h_wgs]`
(latitude first, line 64). -/
def fwdRow3 (E N h_ch : ℚ) : List ℚ :=
  let _y : ℚ := (E - 2600000) / 1000000
  let _x : ℚ := (N - 1200000) / 1000000
  let _long : ℚ :=
    2.6779094 + 4.728982 * _y + 0.791484 * _y * _x + 0.1306 * _y * _x ^ 2
      - 0.0436 * _y ^ 3
  let _lat : ℚ :=
    16.9023892 + 3.238272 * _x - 0.270978 * _y ^ 2 - 0.002528 * _x ^ 2
      - 0.0447 * _x * _y + 0.0140 * _y ^ 3
  let long : ℚ := _long * 100 / 36
  let lat : ℚ := _lat * 100 / 36
  let h_wgs : ℚ := h_ch + 49.55 - 12.6 * _y - 22.64 * _x
  [lat, long, h_wgs]

/-- Payload of one row of `_transform_from_wgs84` for `to_crs = 'CH1903+'`
(lines 77-82): normalize with the constants 169028.66 and 26782.5, apply
the inverse polynomials. Output row is `[E, N, h_ch]` (line 82). -/
def invRow3 (lat0 long0 h_wgs : ℚ) : List ℚ :=
  let _lat : ℚ := (lat0 - 169028.66) / 10000
  let _long : ℚ := (long0 - 26782.5) / 10000
  let E : ℚ :=
    2600072.37 + 211455.93 * _lat - 10938.51 * _lat * _long
      - 0.36 * _lat * _long ^ 2 - 44.54 * _lat ^ 3
  let N : ℚ :=
    1200147.07 + 308807.95 * _long + 3745.25 * _lat ^ 2 + 76.63 * _long ^ 2
      - 194.56 * _lat ^ 2 * _long + 119.79 * _lat ^ 3
  let h_ch : ℚ := h_wgs - 49.55 + 2.73 * _lat + 6.94 * _long
  [E, N, h_ch]

/-- One row of the CH1903+ → WGS84 projection: columns 0, 1, 2 are read
(lines 56), so a row narrower than 3 raises `IndexError`; extra columns
beyond the third are ignored. -/
def chToWgsPoint (p : List ℚ) : Except TransformError (List ℚ) :=
  match p with
  | E :: N :: h_ch :: _ => Except.ok (fwdRow3 E N h_ch)
  | _ => Except.error TransformError.indexError

/-- One row of the WGS84 → CH1903+ projection: columns 0, 1, 2 are read
(lines 77-81), so a row narrower than 3 raises `IndexError`. -/
def wgsToChPoint (p : List ℚ) : Except TransformError (List ℚ) :=
  match p with
  | lat0 :: long0 :: h_wgs :: _ => Except.ok (invRow3 lat0 long0 h_wgs)
  | _ => Except.error TransformError.indexError

/-- Apply a row operation to every row of a 2-D array: the vectorized
numpy expressions act independently on each row, and a raised exception
aborts the whole call with no partial result. -/
def mapRows (f : List ℚ → Except TransformError (List ℚ)) :
    List (List ℚ) → Except TransformError (List (List ℚ))
  | [] => Except.ok []
  | p :: ps =>
    match f p with
    | Except.error e => Except.error e
    | Except.ok q =>
      match mapRows f ps with
      | Except.error e => Except.error e
      | Except.ok qs => Except.ok (q :: qs)

/-- `CoordinateTransformer._transform_to_wgs84` (lines 45-65): identity
for source "WGS84", the forward polynomial projection for "CH1903+", and
`ValueError` ("Unsupported source CRS") for any other name. -/
def transform_to_wgs84 (coords : List (List ℚ)) (from_crs : String) :
    Except TransformError (List (List ℚ)) :=
  if from_crs = "WGS84" then Except.ok coords
  else if from_crs = "CH1903+" then mapRows chToWgsPoint coords
  else Except.error (TransformError.unsupportedSourceCRS from_crs)

/-- `CoordinateTransformer._transform_from_wgs84` (lines 67-83): identity
for target "WGS84", the inverse polynomial projection for "CH1903+", and
`ValueError` ("Unsupported target CRS") for any other name. -/
def transform_from_wgs84 (coords : List (List ℚ)) (to_crs : String) :
    Except TransformError (List (List ℚ)) :=
  if to_crs = "WGS84" then Except.ok coords
  else if to_crs = "CH1903+" then mapRows wgsToChPoint coords
  else Except.error (TransformError.unsupportedTargetCRS to_crs)

/-- `CoordinateTransformer.transform` (lines 13-43).
Steps, in source order:
1. assert both CRS names appear in the registry (lines 21-22);
2. a 1-D input is reshaped to one row (lines 27-28; `np.array([])` is
   1-D, so the empty list becomes a single row with zero columns);
3. `drop_height` holds when the array has exactly 2 columns (numpy
   `shape[1]`, i.e. the common row length, read off the first row) and
   then a zero third column is appended (lines 31-33);
4. identity short-circuit when `from_crs == to_crs` (lines 35-36);
5. otherwise pivot through WGS84 (lines 39-41), stripping the padded
   column on return when `drop_height` (line 43). -/
def transform (coords : Coords) (from_crs to_crs : String) :
    Except TransformError (List (List ℚ)) :=
  if from_crs ∉ SUPPORTED_CRS then
    Except.error (TransformError.unsupportedSourceCRS from_crs)
  else if to_crs ∉ SUPPORTED_CRS then
    Except.error (TransformError.unsupportedTargetCRS to_crs)
  else
    let b0 : List (List ℚ) :=
      match coords with
      | Coords.flat p => [p]
      | Coords.batch b => b
    let b : List (List ℚ) :=
      if (b0.headD []).length = 2 then b0.map (fun p => p ++ [0]) else b0
    if from_crs = to_crs then
      Except.ok
        (if (b0.headD []).length = 2 then b.map (fun p => p.take 2) else b)
    else
      match transform_to_wgs84 b from_crs with
      | Except.error e => Except.error e
      | Except.ok b1 =>
        match transform_from_wgs84 b1 to_crs with
        | Except.error e => Except.error e
        | Except.ok b2 =>
          Except.ok
            (if (b0.headD []).length = 2 then b2.map (fun p => p.take 2)
             else b2)

end MeteoTownPicker

namespace MeteoTownPicker

/-- Total version of the forward row projection, defined on rows of any
width (rows narrower than 3 never reach it in the proofs below). -/
def fwdRowT (p : List ℚ) : List ℚ :=
  match p with
  | E :: N :: h_ch :: _ => fwdRow3 E N h_ch
  | _ => []

/-- Total version of the inverse row projection. -/
def invRowT (p : List ℚ) : List ℚ :=
  match p with
  | lat0 :: long0 :: h_wgs :: _ => invRow3 lat0 long0 h_wgs
  | _ => []

/-- The whole `transform` pipeline restricted to a single row: identity
when source and target coincide, otherwise pad a 2-wide row with height
0, project through WGS84, and strip the padded column again. -/
def pointMap (from_crs to_crs : String) (p : List ℚ) : List ℚ :=
  if from_crs = to_crs then p
  else
    let p3 := if p.length = 2 then p ++ [0] else p
    let q := if from_crs = "CH1903+" then fwdRowT p3 else p3
    let r := if to_crs = "CH1903+" then invRowT q else q
    if p.length = 2 then r.take 2 else r

/-- A row operation that succeeds on every row of `l` maps over `l`. -/
theorem mapRows_ok (f : List ℚ → Except TransformError (List ℚ))
    (g : List ℚ → List ℚ) (l : List (List ℚ))
    (h : ∀ p ∈ l, f p = Except.ok (g p)) :
    mapRows f l = Except.ok (l.map g) := by
  induction l with
  | nil => rfl
  | cons p ps ih =>
    simp only [mapRows, h p (List.mem_cons_self p ps), List.map_cons,
      ih (fun q hq => h q (List.mem_cons_of_mem p hq))]

/-- Identity short-circuit: for matching source and target the batch
comes back unchanged, for any common row width. -/
theorem transform_same (X : String) (d : ℕ) (ps : List (List ℚ))
    (hX : X ∈ SUPPORTED_CRS) (hps : ∀ p ∈ ps, p.length = d) :
    transform (Coords.batch ps) X X = Except.ok ps := by
  have hX' : ¬ X ∉ SUPPORTED_CRS := not_not_intro hX
  by_cases hdrop : ((ps.headD ([] : List ℚ)).length = 2)
  · cases ps with
    | nil => simp at hdrop
    | cons p ps =>
      have h2 : p.length = 2 := by simpa using hdrop
      have hall : ∀ q ∈ p :: ps, q.length = 2 := by
        intro q hq
        rw [hps q hq, ← hps p (List.mem_cons_self p ps), h2]
      simp only [transform, if_neg hX', eq_self_iff_true, if_true, List.headD_cons]
      rw [if_pos h2, if_pos h2, List.map_map]
      congr 1
      rw [List.map_congr_left (g := fun x => x) ?_, List.map_id']
      intro q hq
      obtain ⟨a, b, rfl⟩ := List.length_eq_two.mp (hall q hq)
      rfl
  · simp only [transform, if_neg hX', eq_self_iff_true, if_true]
    rw [if_neg hdrop, if_neg hdrop]

/-- Rows at least 3 wide all project forward successfully. -/
theorem mapRows_chToWgs (l : List (List ℚ)) (h : ∀ p ∈ l, 3 ≤ p.length) :
    mapRows chToWgsPoint l = Except.ok (l.map fwdRowT) := by
  apply mapRows_ok
  intro p hp
  match p, h p hp with
  | a :: b :: c :: r, _ => rfl

/-- Rows at least 3 wide all project backward successfully. -/
theorem mapRows_wgsToCh (l : List (List ℚ)) (h : ∀ p ∈ l, 3 ≤ p.length) :
    mapRows wgsToChPoint l = Except.ok (l.map invRowT) := by
  apply mapRows_ok
  intro p hp
  match p, h p hp with
  | a :: b :: c :: r, _ => rfl

/-- `_transform_to_wgs84` is the identity for source "WGS84". -/
theorem to_wgs84_id (l : List (List ℚ)) :
    transform_to_wgs84 l "WGS84" = Except.ok l := by
  simp [transform_to_wgs84]

/-- `_transform_to_wgs84` applies the forward rows for source "CH1903+". -/
theorem to_wgs84_ch (l : List (List ℚ)) :
    transform_to_wgs84 l "CH1903+" = mapRows chToWgsPoint l := by
  simp [transform_to_wgs84]

/-- `_transform_from_wgs84` is the identity for target "WGS84". -/
theorem from_wgs84_id (l : List (List ℚ)) :
    transform_from_wgs84 l "WGS84" = Except.ok l := by
  simp [transform_from_wgs84]

/-- `_transform_from_wgs84` applies the inverse rows for target "CH1903+". -/
theorem from_wgs84_ch (l : List (List ℚ)) :
    transform_from_wgs84 l "CH1903+" = mapRows wgsToChPoint l := by
  simp [transform_from_wgs84]

/-- Core pointwise description of a cross-CRS transform: on a uniform
batch of width 2 or 3 the whole pipeline is `pointMap` applied row by
row. -/
theorem transform_cross (from_crs to_crs : String) (d : ℕ) (ps : List (List ℚ))
    (hf : from_crs ∈ SUPPORTED_CRS) (ht : to_crs ∈ SUPPORTED_CRS)
    (hft : from_crs ≠ to_crs) (hd : d = 2 ∨ d = 3)
    (hps : ∀ p ∈ ps, p.length = d) :
    transform (Coords.batch ps) from_crs to_crs =
      Except.ok (ps.map (pointMap from_crs to_crs)) := by
  simp only [SUPPORTED_CRS, List.mem_cons, List.not_mem_nil, or_false] at hf ht
  have g1 : ¬ ("WGS84" ∉ SUPPORTED_CRS) := by simp [SUPPORTED_CRS]
  have g2 : ¬ ("CH1903+" ∉ SUPPORTED_CRS) := by simp [SUPPORTED_CRS]
  have hWC : ¬ (("WGS84" : String) = "CH1903+") := by decide
  have hCW : ¬ (("CH1903+" : String) = "WGS84") := by decide
  rcases hf with rfl | rfl <;> rcases ht with rfl | rfl
  · exact absurd rfl hft
  · cases ps with
    | nil =>
      simp [transform, transform_to_wgs84, transform_from_wgs84, mapRows,
        SUPPORTED_CRS]
    | cons p ps =>
      have hdl : p.length = d := hps p (List.mem_cons_self p ps)
      rcases hd with rfl | rfl
      · have hall : ∀ q ∈ p :: ps, q.length = 2 := hps
        have hrows : ∀ q ∈ (p :: ps).map (fun x => x ++ [(0 : ℚ)]),
            3 ≤ q.length := by
          intro q hq
          simp only [List.mem_map] at hq
          obtain ⟨x, hx, rfl⟩ := hq
          simp [hall x hx]
        simp only [transform, if_neg g1, if_neg g2, List.headD_cons,
          if_neg hWC, if_pos hdl, to_wgs84_id, from_wgs84_ch,
          mapRows_wgsToCh _ hrows]
        rw [List.map_map, List.map_map]
        congr 1
        apply List.map_congr_left
        intro q hq
        obtain ⟨a, b, rfl⟩ := List.length_eq_two.mp (hall q hq)
        simp [pointMap, invRowT]
      · have hall : ∀ q ∈ p :: ps, q.length = 3 := hps
        have hdl2 : ¬ (p.length = 2) := by rw [hdl]; decide
        have hrows : ∀ q ∈ p :: ps, 3 ≤ q.length := by
          intro q hq; rw [hall q hq]
        simp only [transform, if_neg g1, if_neg g2, List.headD_cons,
          if_neg hWC, if_neg hdl2, to_wgs84_id, from_wgs84_ch,
          mapRows_wgsToCh _ hrows]
        congr 1
        apply List.map_congr_left
        intro q hq
        obtain ⟨a, b, c, rfl⟩ := List.length_eq_three.mp (hall q hq)
        simp [pointMap, invRowT]
  · cases ps with
    | nil =>
      simp [transform, transform_to_wgs84, transform_from_wgs84, mapRows,
        SUPPORTED_CRS]
    | cons p ps =>
      have hdl : p.length = d := hps p (List.mem_cons_self p ps)
      rcases hd with rfl | rfl
      · have hall : ∀ q ∈ p :: ps, q.length = 2 := hps
        have hrows : ∀ q ∈ (p :: ps).map (fun x => x ++ [(0 : ℚ)]),
            3 ≤ q.length := by
          intro q hq
          simp only [List.mem_map] at hq
          obtain ⟨x, hx, rfl⟩ := hq
          simp [hall x hx]
        simp only [transform, if_neg g1, if_neg g2, List.headD_cons,
          if_neg hCW, if_pos hdl, to_wgs84_ch, from_wgs84_id,
          mapRows_chToWgs _ hrows]
        rw [List.map_map, List.map_map]
        congr 1
        apply List.map_congr_left
        intro q hq
        obtain ⟨a, b, rfl⟩ := List.length_eq_two.mp (hall q hq)
        simp [pointMap, fwdRowT]
      · have hall : ∀ q ∈ p :: ps, q.length = 3 := hps
        have hdl2 : ¬ (p.length = 2) := by rw [hdl]; decide
        have hrows : ∀ q ∈ p :: ps, 3 ≤ q.length := by
          intro q hq; rw [hall q hq]
        simp only [transform, if_neg g1, if_neg g2, List.headD_cons,
          if_neg hCW, if_neg hdl2, to_wgs84_ch, from_wgs84_id,
          mapRows_chToWgs _ hrows]
        congr 1
        apply List.map_congr_left
        intro q hq
        obtain ⟨a, b, c, rfl⟩ := List.length_eq_three.mp (hall q hq)
        simp [pointMap, fwdRowT]
  · exact absurd rfl hft

/-- Pointwise description of any supported transform, same or cross. -/
theorem transform_pointwise (from_crs to_crs : String) (d : ℕ)
    (ps : List (List ℚ))
    (hf : from_crs ∈ SUPPORTED_CRS) (ht : to_crs ∈ SUPPORTED_CRS)
    (hd : d = 2 ∨ d = 3) (hps : ∀ p ∈ ps, p.length = d) :
    transform (Coords.batch ps) from_crs to_crs =
      Except.ok (ps.map (pointMap from_crs to_crs)) := by
  by_cases hft : from_crs = to_crs
  · subst hft
    rw [transform_same from_crs d ps hf hps]
    congr 1
    rw [List.map_congr_left (g := fun x => x) ?_, List.map_id']
    intro q hq
    simp [pointMap]
  · exact transform_cross from_crs to_crs d ps hf ht hft hd hps

/-- A row of width 2 or 3 keeps its width through `pointMap`. -/
theorem pointMap_length (from_crs to_crs : String) (d : ℕ) (p : List ℚ)
    (hf : from_crs ∈ SUPPORTED_CRS) (ht : to_crs ∈ SUPPORTED_CRS)
    (hd : d = 2 ∨ d = 3) (hp : p.length = d) :
    (pointMap from_crs to_crs p).length = d := by
  by_cases hft : from_crs = to_crs
  · simp [pointMap, hft, hp]
  · simp only [SUPPORTED_CRS, List.mem_cons, List.not_mem_nil, or_false] at hf ht
    rcases hd with rfl | rfl
    · obtain ⟨a, b, rfl⟩ := List.length_eq_two.mp hp
      rcases hf with rfl | rfl <;> rcases ht with rfl | rfl <;>
        first
        | exact absurd rfl hft
        | simp [pointMap, fwdRowT, invRowT, fwdRow3, invRow3]
    · obtain ⟨a, b, c, rfl⟩ := List.length_eq_three.mp hp
      rcases hf with rfl | rfl <;> rcases ht with rfl | rfl <;>
        first
        | exact absurd rfl hft
        | simp [pointMap, fwdRowT, invRowT, fwdRow3, invRow3]

end MeteoTownPicker

namespace MeteoTownPicker

/-- C3: for every 3-D batch with source CRS "CH1903+" and target "WGS84",
the forward projection outputs per point, with yn = (E − 2600000)/1000000
and xn = (N − 1200000)/1000000, latitude
(16.9023892 + 3.238272·xn − 0.270978·yn² − 0.002528·xn² − 0.0447·xn·yn
+ 0.0140·yn³)·100/36, longitude (2.6779094 + 4.728982·yn + 0.791484·yn·xn
+ 0.1306·yn·xn² − 0.0436·yn³)·100/36, and height h + 49.55 − 12.6·yn
− 22.64·xn, in output order (latitude, longitude, height). -/
theorem claim_C3 (ps : List (ℚ × ℚ × ℚ)) :
    transform (Coords.batch (ps.map (fun P => [P.1, P.2.1, P.2.2])))
        "CH1903+" "WGS84" =
      Except.ok (ps.map (fun P =>
        let yn : ℚ := (P.1 - 2600000) / 1000000
        let xn : ℚ := (P.2.1 - 1200000) / 1000000
        [(16.9023892 + 3.238272 * xn - 0.270978 * yn ^ 2 - 0.002528 * xn ^ 2
            - 0.0447 * xn * yn + 0.0140 * yn ^ 3) * 100 / 36,
         (2.6779094 + 4.728982 * yn + 0.791484 * yn * xn + 0.1306 * yn * xn ^ 2
            - 0.0436 * yn ^ 3) * 100 / 36,
         P.2.2 + 49.55 - 12.6 * yn - 22.64 * xn])) := by
  rw [transform_pointwise "CH1903+" "WGS84" 3 _ (by simp [SUPPORTED_CRS])
      (by simp [SUPPORTED_CRS]) (Or.inr rfl)
      (by intro p hp; simp only [List.mem_map] at hp;
          obtain ⟨P, _, rfl⟩ := hp; rfl)]
  rw [List.map_map]
  congr 1

/-- C6: for every 3-D batch with source CRS "WGS84" and target "CH1903+",
the inverse projection outputs per point, with latn = (lat − 169028.66)/10000
and lonn = (long − 26782.5)/10000, E = 2600072.37 + 211455.93·latn
− 10938.51·latn·lonn − 0.36·latn·lonn² − 44.54·latn³, N = 1200147.07
+ 308807.95·lonn + 3745.25·latn² + 76.63·lonn² − 194.56·latn²·lonn
+ 119.79·latn³, and h − 49.55 + 2.73·latn + 6.94·lonn, in output order
(E, N, height). -/
theorem claim_C6 (ps : List (ℚ × ℚ × ℚ)) :
    transform (Coords.batch (ps.map (fun P => [P.1, P.2.1, P.2.2])))
        "WGS84" "CH1903+" =
      Except.ok (ps.map (fun P =>
        let latn : ℚ := (P.1 - 169028.66) / 10000
        let lonn : ℚ := (P.2.1 - 26782.5) / 10000
        [2600072.37 + 211455.93 * latn - 10938.51 * latn * lonn
            - 0.36 * latn * lonn ^ 2 - 44.54 * latn ^ 3,
         1200147.07 + 308807.95 * lonn + 3745.25 * latn ^ 2 + 76.63 * lonn ^ 2
            - 194.56 * latn ^ 2 * lonn + 119.79 * latn ^ 3,
         P.2.2 - 49.55 + 2.73 * latn + 6.94 * lonn])) := by
  rw [transform_pointwise "WGS84" "CH1903+" 3 _ (by simp [SUPPORTED_CRS])
      (by simp [SUPPORTED_CRS]) (Or.inr rfl)
      (by intro p hp; simp only [List.mem_map] at hp;
          obtain ⟨P, _, rfl⟩ := hp; rfl)]
  rw [List.map_map]
  congr 1

/-- C5: for every supported CRS name X and every valid batch (uniform
dimensionality 2 or 3), transform(P, X, X) returns P exactly, component
for component. -/
theorem claim_C5 (X : String) (d : ℕ) (ps : List (List ℚ))
    (hX : X ∈ SUPPORTED_CRS) (_hd : d = 2 ∨ d = 3)
    (hps : ∀ p ∈ ps, p.length = d) :
    transform (Coords.batch ps) X X = Except.ok ps :=
  transform_same X d ps hX hps

/-- C5 witness: a concrete 3-D batch under "WGS84" → "WGS84". -/
theorem claim_C5_witness :
    transform (Coords.batch [[46, 7, 100], [47, 8, 200]]) "WGS84" "WGS84" =
      Except.ok [[46, 7, 100], [47, 8, 200]] :=
  claim_C5 "WGS84" 3 [[46, 7, 100], [47, 8, 200]] (by simp [SUPPORTED_CRS])
    (Or.inr rfl)
    (by intro p hp; simp only [List.mem_cons, List.not_mem_nil, or_false] at hp
        rcases hp with rfl | rfl <;> rfl)

/-- C8: for every pair of supported CRS names and every valid batch, the
output batch has the same length and the same dimensionality as the
input. -/
theorem claim_C8 (from_crs to_crs : String) (d : ℕ) (ps : List (List ℚ))
    (hf : from_crs ∈ SUPPORTED_CRS) (ht : to_crs ∈ SUPPORTED_CRS)
    (hd : d = 2 ∨ d = 3) (hps : ∀ p ∈ ps, p.length = d) :
    ∃ out : List (List ℚ),
      transform (Coords.batch ps) from_crs to_crs = Except.ok out ∧
      out.length = ps.length ∧ ∀ q ∈ out, q.length = d := by
  refine ⟨ps.map (pointMap from_crs to_crs),
    transform_pointwise from_crs to_crs d ps hf ht hd hps, by simp, ?_⟩
  intro q hq
  simp only [List.mem_map] at hq
  obtain ⟨p, hp, rfl⟩ := hq
  exact pointMap_length from_crs to_crs d p hf ht hd (hps p hp)

/-- C8 witness: a concrete 2-D point under "CH1903+" → "WGS84" keeps
dimensionality 2. -/
theorem claim_C8_witness :
    ∃ out : List (List ℚ),
      transform (Coords.batch [[2600000, 1200000]]) "CH1903+" "WGS84" =
        Except.ok out ∧
      out.length = 1 ∧ ∀ q ∈ out, q.length = 2 :=
  claim_C8 "CH1903+" "WGS84" 2 [[2600000, 1200000]] (by simp [SUPPORTED_CRS])
    (by simp [SUPPORTED_CRS]) (Or.inl rfl)
    (by intro p hp; simp only [List.mem_cons, List.not_mem_nil, or_false] at hp
        rw [hp]; rfl)

/-- C9: transforming a batch equals transforming each point as a
singleton batch and concatenating: one per-point function g describes
both results. -/
theorem claim_C9 (from_crs to_crs : String) (d : ℕ) (ps : List (List ℚ))
    (hf : from_crs ∈ SUPPORTED_CRS) (ht : to_crs ∈ SUPPORTED_CRS)
    (hd : d = 2 ∨ d = 3) (hps : ∀ p ∈ ps, p.length = d) :
    ∃ g : List ℚ → List ℚ,
      transform (Coords.batch ps) from_crs to_crs = Except.ok (ps.map g) ∧
      ∀ p ∈ ps,
        transform (Coords.batch [p]) from_crs to_crs = Except.ok [g p] := by
  refine ⟨pointMap from_crs to_crs,
    transform_pointwise from_crs to_crs d ps hf ht hd hps, ?_⟩
  intro p hp
  have hone : ∀ q ∈ [p], q.length = d := by
    intro q hq
    simp only [List.mem_singleton] at hq
    rw [hq]
    exact hps p hp
  have h1 := transform_pointwise from_crs to_crs d [p] hf ht hd hone
  simpa using h1

/-- C9 witness: a concrete two-point 2-D batch under "CH1903+" →
"WGS84". -/
theorem claim_C9_witness :
    ∃ g : List ℚ → List ℚ,
      transform (Coords.batch [[1, 2], [3, 4]]) "CH1903+" "WGS84" =
        Except.ok ([[1, 2], [3, 4]].map g) ∧
      ∀ p ∈ ([[1, 2], [3, 4]] : List (List ℚ)),
        transform (Coords.batch [p]) "CH1903+" "WGS84" = Except.ok [g p] :=
  claim_C9 "CH1903+" "WGS84" 2 [[1, 2], [3, 4]] (by simp [SUPPORTED_CRS])
    (by simp [SUPPORTED_CRS]) (Or.inl rfl)
    (by intro p hp; simp only [List.mem_cons, List.not_mem_nil, or_false] at hp
        rcases hp with rfl | rfl <;> rfl)

/-- C10: a single coordinate passed as one flat 2- or 3-element sequence
is accepted, reshaped into a one-point batch, and the result is a batch
containing one point. -/
theorem claim_C10 (p : List ℚ) (from_crs to_crs : String)
    (hf : from_crs ∈ SUPPORTED_CRS) (ht : to_crs ∈ SUPPORTED_CRS)
    (hp : p.length = 2 ∨ p.length = 3) :
    ∃ q : List ℚ, transform (Coords.flat p) from_crs to_crs =
      Except.ok [q] := by
  have hb : transform (Coords.flat p) from_crs to_crs =
      transform (Coords.batch [p]) from_crs to_crs := by
    simp only [transform]
  have hone : ∀ q ∈ [p], q.length = p.length := by
    intro q hq
    simp only [List.mem_singleton] at hq
    rw [hq]
  have h1 := transform_pointwise from_crs to_crs p.length [p] hf ht hp hone
  refine ⟨pointMap from_crs to_crs p, ?_⟩
  rw [hb]
  simpa using h1

/-- C10 witness: the flat pair (2600000, 1200000) under "CH1903+" →
"WGS84". -/
theorem claim_C10_witness :
    ∃ q : List ℚ,
      transform (Coords.flat [2600000, 1200000]) "CH1903+" "WGS84" =
        Except.ok [q] :=
  claim_C10 [2600000, 1200000] "CH1903+" "WGS84" (by simp [SUPPORTED_CRS])
    (by simp [SUPPORTED_CRS]) (Or.inl rfl)

/-- C7: whenever the source or the target CRS name is missing from the
registry, transform fails with the unsupported-CRS error naming the
offending side (the source name is checked first), and no transformed
result is returned. -/
theorem claim_C7 (coords : Coords) (from_crs to_crs : String)
    (h : from_crs ∉ SUPPORTED_CRS ∨ to_crs ∉ SUPPORTED_CRS) :
    transform coords from_crs to_crs =
      Except.error
        (if from_crs ∈ SUPPORTED_CRS
         then TransformError.unsupportedTargetCRS to_crs
         else TransformError.unsupportedSourceCRS from_crs) := by
  by_cases hf : from_crs ∈ SUPPORTED_CRS
  · have htn : to_crs ∉ SUPPORTED_CRS := h.resolve_left (not_not_intro hf)
    simp only [transform, if_neg (not_not_intro hf), if_pos htn, if_pos hf]
  · simp only [transform, if_pos hf, if_neg hf]

/-- C7 witness: transform([(1,2)], "CH1903+", "NAD83") fails with the
unsupported-target error naming "NAD83". -/
theorem claim_C7_witness :
    transform (Coords.flat [1, 2]) "CH1903+" "NAD83" =
      Except.error (TransformError.unsupportedTargetCRS "NAD83") := by
  have h := claim_C7 (Coords.flat [1, 2]) "CH1903+" "NAD83"
    (Or.inr (by simp [SUPPORTED_CRS]))
  simpa [SUPPORTED_CRS] using h

/-- C2 counterexample: transform([], "WGS84", "WGS84") does not fail:
`np.array([])` is 1-dimensional, is reshaped to one row of zero columns,
and the identity short-circuit returns it, so the call succeeds with a
batch holding one empty point; no emptiness or dimensionality validation
exists in `transform` (it has no InvalidInput error at all). -/
theorem claim_C2_counterexample :
    transform (Coords.flat []) "WGS84" "WGS84" = Except.ok [[]] := by
  simp [transform, SUPPORTED_CRS]

/-- C2 amended: transform performs no batch validation. For any supported
CRS name X, the empty input is reshaped to a single zero-component point
and returned successfully by the identity short-circuit instead of
failing with InvalidInput. -/
theorem claim_C2_amended (X : String) (hX : X ∈ SUPPORTED_CRS) :
    transform (Coords.flat []) X X = Except.ok [[]] := by
  have hX' : ¬ X ∉ SUPPORTED_CRS := not_not_intro hX
  simp only [transform, if_neg hX', eq_self_iff_true, if_true]
  simp

/-- C2 amended witness: the empty input under "CH1903+" → "CH1903+". -/
theorem claim_C2_amended_witness :
    transform (Coords.flat []) "CH1903+" "CH1903+" = Except.ok [[]] :=
  claim_C2_amended "CH1903+" (by simp [SUPPORTED_CRS])

/-- C4: Bern's reference coordinate E=2600000, N=1200000, h=0 under
"CH1903+" → "WGS84" yields one point with latitude within 0.01 of 46.951,
longitude within 0.01 of 7.439, and height exactly 49.55. -/
theorem claim_C4 :
    ∃ lat long h : ℚ,
      transform (Coords.batch [[2600000, 1200000, 0]]) "CH1903+" "WGS84" =
        Except.ok [[lat, long, h]] ∧
      |lat - 46.951| < 1/100 ∧ |long - 7.439| < 1/100 ∧ h = 49.55 := by
  refine ⟨42255973/900000, 13389547/1800000, 991/20, ?_, ?_, ?_, by norm_num⟩
  · simp [transform, SUPPORTED_CRS, transform_to_wgs84, transform_from_wgs84,
      mapRows, chToWgsPoint, fwdRow3]
    norm_num
  · have h1 : (42255973/900000 : ℚ) - 46.951 = 73/900000 := by norm_num
    rw [h1, abs_of_pos (by norm_num)]
    norm_num
  · have h2 : (13389547/1800000 : ℚ) - 7.439 = -(653/1800000) := by norm_num
    rw [h2, abs_neg, abs_of_pos (by norm_num)]
    norm_num

/-- C1: the round trip CH1903+ → WGS84 → CH1903+ of Bern's reference
point (2600000, 1200000, 0) does NOT return the original within 0.1:
the forward pass yields degrees, but `_transform_from_wgs84` subtracts
arcsecond-scaled constants (169028.66, 26782.5) from them without the
degrees→seconds conversion, so the easting comes back at about
−1253098.59, off by roughly 3.85 million units. -/
theorem claim_C1_code_bug :
    transform (Coords.batch [[2600000, 1200000, 0]]) "CH1903+" "WGS84" =
        Except.ok [[42255973/900000, 13389547/1800000, 991/20]] ∧
    transform (Coords.batch [[42255973/900000, 13389547/1800000, 991/20]])
        "WGS84" "CH1903+" =
      Except.ok
        [[-(91350887225049679489087217443776984131 /
              72900000000000000000000000000000 : ℚ),
          73924029998270943191370417937309576879 /
            72900000000000000000000000000000,
          -(29121254604281 / 450000000000 : ℚ)]] ∧
    ¬ |(-(91350887225049679489087217443776984131 /
              72900000000000000000000000000000 : ℚ)) - 2600000| < 1/10 := by
  refine ⟨?_, ?_, ?_⟩
  · simp [transform, SUPPORTED_CRS, transform_to_wgs84, transform_from_wgs84,
      mapRows, chToWgsPoint, fwdRow3]
    norm_num
  · simp [transform, SUPPORTED_CRS, transform_to_wgs84, transform_from_wgs84,
      mapRows, wgsToChPoint, invRow3]
    norm_num
  · rw [abs_of_neg (by norm_num)]
    norm_num

end MeteoTownPicker
